import Mathlib

/-
Verification of the mon operator subsystem (pkg/operator/mon/mon.go):
cluster-identity resolution, mon-pod reconciliation and the bounded
readiness poll.  External collaborators (the Kubernetes clientset and
the cephmgr mon package) are modelled as an environment of oracles; each
operation additionally returns the list of calls it issued against the
collaborators, so that claims about call counts and call order can be
stated.
-/

namespace Rook

/-- Pod phases as observed through the platform (k8s v1.PodPhase). -/
inductive PodPhase where
  | pending
  | running
  | succeeded
  | failed
  | unknown
deriving DecidableEq, Repr

/-- The fields of a pod that mon.go reads: its name, observed phase
(pod.Status.Phase) and observed IP (pod.Status.PodIP). -/
structure Pod where
  name : String
  phase : PodPhase
  podIP : String
deriving DecidableEq, Repr

/-- Classification of resource-store errors, as exposed by
k8sutil.IsKubernetesResourceNotFoundError and
k8sutil.IsKubernetesResourceAlreadyExistError. -/
inductive K8sError where
  | notFound
  | alreadyExists
  | other (msg : String)
deriving DecidableEq, Repr

/-- k8sutil.IsKubernetesResourceNotFoundError. -/
def isNotFoundError : K8sError → Bool
  | .notFound => true
  | _ => false

/-- k8sutil.IsKubernetesResourceAlreadyExistError. -/
def isAlreadyExistsError : K8sError → Bool
  | .alreadyExists => true
  | _ => false

/-- Constant appName = "mon" (mon.go line 31). -/
def appName : String := "mon"

/-- Constant fsidSecretName = "fsid" (mon.go line 35). -/
def fsidSecretName : String := "fsid"

/-- Constant monSecretName = "mon-secret" (mon.go line 36). -/
def monSecretName : String := "mon-secret"

/-- Constant adminSecretName = "admin-secret" (mon.go line 37). -/
def adminSecretName : String := "admin-secret"

/-- Constant clusterSecretName = "cluster-name" (mon.go line 38). -/
def clusterSecretName : String := "cluster-name"

/-- Modelled from the spec: mon.Port, the fixed well-known monitor port
(defined in the cephmgr mon package, outside the sources). -/
def monPortValue : Nat := 6790

/-- Modelled from the spec: mon.CephMonitorConfig, a monitor entry owning
the name and the address/port encoding of one monitor. -/
structure CephMonitorConfig where
  name : String
  endpoint : String
deriving DecidableEq, Repr

/-- Modelled from the spec: mon.ToCephMon(name, ip), which encodes the
observed address and the fixed port into a monitor entry. -/
def toCephMon (name ip : String) : CephMonitorConfig :=
  { name := name, endpoint := ip ++ ":" ++ toString monPortValue }

/-- mon.ClusterInfo as used by mon.go: cluster name, fsid, the two
secrets, and the monitor name-to-entry map (modelled as an association
list written in insertion order). -/
structure ClusterInfo where
  name : String
  fsid : String
  monitorSecret : String
  adminSecret : String
  monitors : List (String × CephMonitorConfig)
deriving DecidableEq, Repr

/-- The four generated identity fields produced by the monitor-management
collaborator's factory. -/
structure FreshIdentity where
  name : String
  fsid : String
  monitorSecret : String
  adminSecret : String
deriving DecidableEq, Repr

/-- Modelled from the spec: mon.CreateClusterInfo(factory, ""), which owns
secret-value generation (fsid and secret derivation) and yields a fresh
identity; the monitor map of a fresh identity is empty. -/
def CreateClusterInfo (f : FreshIdentity) : ClusterInfo :=
  { name := f.name, fsid := f.fsid, monitorSecret := f.monitorSecret
    adminSecret := f.adminSecret, monitors := [] }

/-- A persisted secret resource: its Data field map.  Reading an absent
key yields the empty string, as Go map indexing of map[string][]byte does. -/
structure Secret where
  data : List (String × String)
deriving DecidableEq, Repr

/-- string(secrets.Data[key]): lookup with Go's zero-value default "". -/
def secretField (s : Secret) (k : String) : String :=
  match s.data.find? (fun kv => kv.1 == k) with
  | some kv => kv.2
  | none => ""

/-- MonConfig (mon.go lines 54-57). -/
structure MonConfig where
  name : String
  port : Nat
deriving DecidableEq, Repr

/-- The fields of the Cluster receiver that drive the modelled logic
(mon.go lines 41-52): the namespace and the desired mon count. -/
structure Cluster where
  ns : String
  size : Nat
deriving DecidableEq, Repr

/-- One call issued against an external collaborator.  createSecret
carries the StringData written, so that a store can replay the call. -/
inductive Event where
  | getSecret (name : String)
  | createSecret (name : String) (data : List (String × String))
  | listNodes
  | listPods
  | createPod (name : String)
  | getPodStatus (name : String)
  | sleep (seconds : Nat)
deriving DecidableEq, Repr

/-- Whether an event is a write against the resource store. -/
def Event.isWrite : Event → Bool
  | .createSecret _ _ => true
  | .createPod _ => true
  | _ => false

/-- The error values mon.go builds with fmt.Errorf, by wrapping site. -/
inductive RookError where
  | getMonSecretsFailed (e : K8sError)
  | createMonSecretsFailed (msg : String)
  | saveMonSecretsFailed (e : K8sError)
  | saveAdminSecretFailed (e : K8sError)
  | listNodesFailed (e : K8sError)
  | getAntiAffinityFailed (e : RookError)
  | getMonPodsFailed (e : K8sError)
  | createMonPodFailed (ns : String) (e : K8sError)
  | getPodFailed (name : String) (e : K8sError)
  | timedOut (name : String)
  | podStartFailed (name : String) (e : RookError)
  | initClusterInfoFailed (e : RookError)
  | startPodsFailed (e : RookError)
deriving DecidableEq, Repr

/-- The responses of the external collaborators for one run.  getPod is
indexed by the pod name and by the fetch attempt number for that pod, so
a status that changes over time can be described. -/
structure Env where
  getMonSecret : Except K8sError Secret
  createClusterInfo : Except String FreshIdentity
  createMonSecret : Except K8sError Unit
  createAdminSecret : Except K8sError Unit
  listNodes : Except K8sError Nat
  listPods : Except K8sError (List Pod)
  createPod : String → Except K8sError Unit
  getPod : String → Nat → Except K8sError Pod

/-- createMonSecretsAndSave (mon.go lines 112-156): generate a fresh
identity, persist the primary "mon" secret (any failure fatal), then
persist the secondary "rook-admin" secret (AlreadyExists tolerated). -/
def createMonSecretsAndSave (env : Env) (_c : Cluster) :
    Except RookError ClusterInfo × List Event :=
  match env.createClusterInfo with
  | .error e => (.error (.createMonSecretsFailed e), [])
  | .ok fresh =>
    let info := CreateClusterInfo fresh
    let secretData := [(clusterSecretName, info.name), (fsidSecretName, info.fsid),
      (monSecretName, info.monitorSecret), (adminSecretName, info.adminSecret)]
    match env.createMonSecret with
    | .error e => (.error (.saveMonSecretsFailed e), [Event.createSecret appName secretData])
    | .ok _ =>
      let evs := [Event.createSecret appName secretData,
        Event.createSecret "rook-admin" [("key", info.adminSecret)]]
      match env.createAdminSecret with
      | .error e =>
        if isAlreadyExistsError e then (.ok info, evs)
        else (.error (.saveAdminSecretFailed e), evs)
      | .ok _ => (.ok info, evs)

/-- initClusterInfo (mon.go lines 91-110): look up the persisted "mon"
secret; NotFound triggers first-time creation, any other lookup failure
is fatal; when found, the four fields are read back and the monitor map
starts empty. -/
def initClusterInfo (env : Env) (c : Cluster) :
    Except RookError ClusterInfo × List Event :=
  match env.getMonSecret with
  | .error e =>
    if isNotFoundError e then
      let res := createMonSecretsAndSave env c
      (res.1, Event.getSecret appName :: res.2)
    else
      (.error (.getMonSecretsFailed e), [Event.getSecret appName])
  | .ok secrets =>
    (.ok { name := secretField secrets clusterSecretName
           fsid := secretField secrets fsidSecretName
           monitorSecret := secretField secrets monSecretName
           adminSecret := secretField secrets adminSecretName
           monitors := [] }, [Event.getSecret appName])

/-- Modelled from the spec: pollPods (defined outside these sources, in
pod.go), which lists the instances sharing the cluster-name label and
classifies each by phase into the Running and the Pending set. -/
def pollPods (env : Env) :
    Except K8sError (List Pod × List Pod) × List Event :=
  match env.listPods with
  | .error e => (.error e, [Event.listPods])
  | .ok pods =>
    (.ok (pods.filter (fun p => p.phase == PodPhase.running),
          pods.filter (fun p => p.phase == PodPhase.pending)), [Event.listPods])

/-- getAntiAffinity (mon.go lines 234-244): list the nodes and report
whether there are at least as many nodes as desired monitors. -/
def getAntiAffinity (env : Env) (c : Cluster) :
    Except RookError Bool × List Event :=
  match env.listNodes with
  | .error e => (.error (.listNodesFailed e), [Event.listNodes])
  | .ok n => (.ok (decide (c.size ≤ n)), [Event.listNodes])

/-- The poll loop of waitForPodToStart (mon.go lines 212-227), with the
attempt index i and the remaining fuel made explicit (the source runs i
from 0 while i < 15).  Each attempt sleeps 6 seconds, then fetches the
pod; a fetch failure aborts at once, a Running phase returns the
observed pod IP, and exhausted fuel times out. -/
def waitAttempts (env : Env) (podName : String) :
    Nat → Nat → Except RookError String × List Event
  | _, 0 => (.error (.timedOut podName), [])
  | i, fuel + 1 =>
    match env.getPod podName i with
    | .error e =>
      (.error (.getPodFailed podName e), [Event.sleep 6, Event.getPodStatus podName])
    | .ok p =>
      if p.phase = PodPhase.running then
        (.ok p.podIP, [Event.sleep 6, Event.getPodStatus podName])
      else
        let rest := waitAttempts env podName (i + 1) fuel
        (rest.1, Event.sleep 6 :: Event.getPodStatus podName :: rest.2)

/-- waitForPodToStart (mon.go lines 208-230): at most 15 attempts,
starting at attempt index 0. -/
def waitForPodToStart (env : Env) (podName : String) :
    Except RookError String × List Event :=
  waitAttempts env podName 0 15

/-- Go map assignment m[k] = v on the monitors association list: any
earlier binding of k is dropped and the new binding appended. -/
def monInsert (ms : List (String × CephMonitorConfig)) (k : String)
    (v : CephMonitorConfig) : List (String × CephMonitorConfig) :=
  ms.filter (fun kv => kv.1 != k) ++ [(k, v)]

/-- The creation loop of startPods (mon.go lines 183-202): for each
MonConfig, create its pod (AlreadyExists tolerated, any other failure
fatal), then wait for it to start (any failure fatal) and record its
monitor entry.  The pod built by makeMonPod carries the MonConfig's
deterministic name (makeMonPod is outside these sources; the spec gives
the instance its spec's index-derived name). -/
def startMonsLoop (env : Env) (c : Cluster) :
    ClusterInfo → List MonConfig → Except RookError ClusterInfo × List Event
  | info, [] => (.ok info, [])
  | info, m :: rest =>
    let createOutcome : Except RookError Unit :=
      match env.createPod m.name with
      | .error e =>
        if isAlreadyExistsError e then .ok ()
        else .error (.createMonPodFailed c.ns e)
      | .ok _ => .ok ()
    match createOutcome with
    | .error e => (.error e, [Event.createPod m.name])
    | .ok _ =>
      match waitForPodToStart env m.name with
      | (.error we, wevs) =>
        (.error (.podStartFailed m.name we), Event.createPod m.name :: wevs)
      | (.ok podIP, wevs) =>
        let res := startMonsLoop env c
          { info with monitors := monInsert info.monitors m.name (toCephMon m.name podIP) }
          rest
        (res.1, Event.createPod m.name :: (wevs ++ res.2))

/-- startPods (mon.go lines 158-206): compute anti-affinity, poll the
existing pods, reset the monitor map and fill it from the Running pods,
short-circuit when the Running count equals the desired size, and
otherwise run the creation loop over all MonConfigs. -/
def startPods (env : Env) (c : Cluster) (clusterInfo : ClusterInfo)
    (mons : List MonConfig) : Except RookError ClusterInfo × List Event :=
  match getAntiAffinity env c with
  | (.error e, evs) => (.error (.getAntiAffinityFailed e), evs)
  | (.ok _antiAffinity, evs1) =>
    match pollPods env with
    | (.error e, evs2) => (.error (.getMonPodsFailed e), evs1 ++ evs2)
    | (.ok (running, _pending), evs2) =>
      let info1 := { clusterInfo with
        monitors := running.foldl
          (fun ms p => monInsert ms p.name (toCephMon p.name p.podIP)) [] }
      if running.length = c.size then
        (.ok info1, evs1 ++ evs2)
      else
        let res := startMonsLoop env c info1 mons
        (res.1, evs1 ++ evs2 ++ res.2)

/-- The MonConfig list built by Start (mon.go lines 76-79): names
mon0 .. mon(size-1) on the fixed port. -/
def monConfigs (size : Nat) : List MonConfig :=
  (List.range size).map (fun i => { name := "mon" ++ toString i, port := monPortValue })

/-- Start (mon.go lines 69-87): resolve the cluster identity, build the
MonConfig list, and reconcile the pods. -/
def Start (env : Env) (c : Cluster) : Except RookError ClusterInfo × List Event :=
  match initClusterInfo env c with
  | (.error e, evs) => (.error (.initClusterInfoFailed e), evs)
  | (.ok clusterInfo, evs1) =>
    match startPods env c clusterInfo (monConfigs c.size) with
    | (.error e, evs2) => (.error (.startPodsFailed e), evs1 ++ evs2)
    | (.ok info, evs2) => (.ok info, evs1 ++ evs2)

/-- GetMonPodsRunning (mon.go lines 246-252): the read-only running and
pending counts. -/
def GetMonPodsRunning (env : Env) :
    Except RookError (Nat × Nat) × List Event :=
  match pollPods env with
  | (.error e, evs) => (.error (.getMonPodsFailed e), evs)
  | (.ok (running, pending), evs) => (.ok (running.length, pending.length), evs)

/-
A store-backed instantiation of the environment, for the idempotence
claim: the resource store holds the persisted secrets, a get by name
answers NotFound exactly when the name is absent, and an atomic create
answers AlreadyExists exactly when the name is present.
-/

/-- The persisted secrets of one namespace, by resource name. -/
structure Store where
  secrets : List (String × List (String × String))
deriving DecidableEq, Repr

/-- Get a secret by name: NotFound when absent. -/
def storeGet (s : Store) (name : String) : Except K8sError Secret :=
  match s.secrets.find? (fun kv => kv.1 == name) with
  | some kv => .ok { data := kv.2 }
  | none => .error .notFound

/-- Whether the store holds a secret under the given name. -/
def storeHas (s : Store) (name : String) : Bool :=
  (s.secrets.find? (fun kv => kv.1 == name)).isSome

/-- The environment a store answers: atomic create fails with
AlreadyExists exactly when the name is already present.  The fresh
identity the factory would generate is a parameter (its values are
random in the source).  The pod oracles are unused on identity paths. -/
def envOfStore (s : Store) (fresh : FreshIdentity) : Env :=
  { getMonSecret := storeGet s appName
    createClusterInfo := .ok fresh
    createMonSecret := if storeHas s appName then .error .alreadyExists else .ok ()
    createAdminSecret := if storeHas s "rook-admin" then .error .alreadyExists else .ok ()
    listNodes := .ok 0
    listPods := .ok []
    createPod := fun _ => .ok ()
    getPod := fun _ _ => .error .notFound }

/-- Replay one issued call against the store: a successful atomic create
inserts, everything else leaves the store unchanged. -/
def applyEvent (s : Store) : Event → Store
  | .createSecret name data =>
    if storeHas s name then s else { secrets := s.secrets ++ [(name, data)] }
  | _ => s

/-- Replay a trace of calls against the store. -/
def applyEvents (s : Store) (evs : List Event) : Store :=
  evs.foldl applyEvent s

/-- resolve() against a persisted store state: run initClusterInfo on the
store-backed environment and replay its writes, yielding the result, the
new store state and the issued calls. -/
def resolveStore (s : Store) (fresh : FreshIdentity) (c : Cluster) :
    Except RookError ClusterInfo × Store × List Event :=
  let res := initClusterInfo (envOfStore s fresh) c
  (res.1, applyEvents s res.2, res.2)

/-
Shared helper lemmas.
-/

/-- The found path of initClusterInfo: a persisted "mon" secret is read
back field by field and no further call is issued. -/
theorem initClusterInfo_found (env : Env) (c : Cluster) (sec : Secret)
    (h : env.getMonSecret = .ok sec) :
    initClusterInfo env c =
      (.ok { name := secretField sec clusterSecretName
             fsid := secretField sec fsidSecretName
             monitorSecret := secretField sec monSecretName
             adminSecret := secretField sec adminSecretName
             monitors := [] }, [Event.getSecret appName]) := by
  simp [initClusterInfo, h]

/-- The poll loop under an always-Pending, always-successful status
oracle: every attempt is consumed and the loop times out, having issued
one sleep and one fetch per unit of fuel. -/
theorem waitAttempts_always_pending (env : Env) (podName : String)
    (h : ∀ i, ∃ p, env.getPod podName i = .ok p ∧ p.phase = PodPhase.pending) :
    ∀ fuel i, waitAttempts env podName i fuel =
      (.error (.timedOut podName),
       (List.replicate fuel [Event.sleep 6, Event.getPodStatus podName]).flatten) := by
  intro fuel
  induction fuel with
  | zero => intro i; simp [waitAttempts]
  | succ n ih =>
    intro i
    obtain ⟨p, hp, hph⟩ := h i
    simp [waitAttempts, hp, hph, ih (i + 1), List.replicate_succ]

/-- The poll loop when the status fetch of attempt k fails after k
non-Running successful fetches: the loop aborts on attempt k with the
fetch error, having issued exactly k+1 sleeps and k+1 fetches. -/
theorem waitAttempts_fetch_error (env : Env) (podName : String) (e : K8sError) :
    ∀ k i fuel, k < fuel →
    (∀ j, j < k → ∃ p, env.getPod podName (i + j) = .ok p ∧ p.phase ≠ PodPhase.running) →
    env.getPod podName (i + k) = .error e →
    waitAttempts env podName i fuel =
      (.error (.getPodFailed podName e),
       (List.replicate k [Event.sleep 6, Event.getPodStatus podName]).flatten
         ++ [Event.sleep 6, Event.getPodStatus podName]) := by
  intro k
  induction k with
  | zero =>
    intro i fuel hf hpre herr
    obtain ⟨f, rfl⟩ : ∃ f, fuel = f + 1 := ⟨fuel - 1, by omega⟩
    simp [waitAttempts, show env.getPod podName i = .error e by simpa using herr]
  | succ n ih =>
    intro i fuel hf hpre herr
    obtain ⟨f, rfl⟩ : ∃ f, fuel = f + 1 := ⟨fuel - 1, by omega⟩
    obtain ⟨p, hp, hph⟩ := hpre 0 (Nat.succ_pos n)
    have hrec := ih (i + 1) f (by omega)
      (fun j hj => by
        obtain ⟨q, hq, hqph⟩ := hpre (j + 1) (by omega)
        exact ⟨q, by rw [show i + 1 + j = i + (j + 1) by omega]; exact hq, hqph⟩)
      (by rw [show i + 1 + n = i + (n + 1) by omega]; exact herr)
    simp [waitAttempts, show env.getPod podName i = .ok p by simpa using hp, hph, hrec,
      List.replicate_succ]

/-
C2.  The claim asserts that a deserialization problem on the found path
(for instance a required field absent from the persisted resource) is a
fatal error.  In the source the four fields are read with Go's
zero-value map indexing, so an absent field silently deserializes to the
empty string and the found path always succeeds; the claim's second half
(the found path never regenerates the identity) does hold.
-/

/-- A cluster value with the default size used by New. -/
def clusterA : Cluster := { ns := "default", size := 3 }

/-- An environment whose persisted "mon" secret exists but holds none of
the four required fields. -/
def envEmptyMonSecret : Env :=
  { getMonSecret := .ok { data := [] }
    createClusterInfo := .ok { name := "c", fsid := "f", monitorSecret := "m", adminSecret := "a" }
    createMonSecret := .ok ()
    createAdminSecret := .ok ()
    listNodes := .ok 0
    listPods := .ok []
    createPod := fun _ => .ok ()
    getPod := fun _ _ => .error .notFound }

/-- C2 counterexample: the persisted identity resource exists with all
four required fields absent, yet resolve() returns success with
empty-string fields instead of the fatal error the claim requires. -/
theorem c2_counterexample :
    envEmptyMonSecret.getMonSecret = .ok { data := [] } ∧
    (initClusterInfo envEmptyMonSecret clusterA).1 =
      .ok { name := "", fsid := "", monitorSecret := "", adminSecret := ""
            monitors := [] } := by
  constructor
  · rfl
  · rfl

/-- C2 (amended): when resolve() finds the persisted identity resource it
deserializes the four fields with absent fields read as empty strings,
returns successfully — deserialization cannot fail — and never generates
a fresh identity: the found path issues no write against the store. -/
theorem c2_found_path_total (env : Env) (c : Cluster) (sec : Secret)
    (h : env.getMonSecret = .ok sec) :
    (initClusterInfo env c).1 =
      .ok { name := secretField sec clusterSecretName
            fsid := secretField sec fsidSecretName
            monitorSecret := secretField sec monSecretName
            adminSecret := secretField sec adminSecretName
            monitors := [] } ∧
    (initClusterInfo env c).2.filter Event.isWrite = [] := by
  rw [initClusterInfo_found env c sec h]
  constructor
  · rfl
  · rfl

/-- C2 witness: the amended theorem applied to a concrete environment
holding a fully populated persisted secret. -/
theorem c2_found_path_total_witness :
    (initClusterInfo
        { envEmptyMonSecret with
          getMonSecret := .ok { data := [(clusterSecretName, "rookcluster"),
            (fsidSecretName, "abc"), (monSecretName, "ms"), (adminSecretName, "as")] } }
        clusterA).1 =
      .ok { name := "rookcluster", fsid := "abc", monitorSecret := "ms"
            adminSecret := "as", monitors := [] } ∧
    (initClusterInfo
        { envEmptyMonSecret with
          getMonSecret := .ok { data := [(clusterSecretName, "rookcluster"),
            (fsidSecretName, "abc"), (monSecretName, "ms"), (adminSecretName, "as")] } }
        clusterA).2.filter Event.isWrite = [] := by
  have h := c2_found_path_total
    { envEmptyMonSecret with
      getMonSecret := .ok { data := [(clusterSecretName, "rookcluster"),
        (fsidSecretName, "abc"), (monSecretName, "ms"), (adminSecretName, "as")] } }
    clusterA
    { data := [(clusterSecretName, "rookcluster"), (fsidSecretName, "abc"),
      (monSecretName, "ms"), (adminSecretName, "as")] }
    rfl
  exact ⟨by rw [h.1]; rfl, h.2⟩

/-
C8 and C9: the bounded readiness poll.
-/

/-- C8: against an instance whose fetched status is always Pending and
whose fetches always succeed, wait() performs exactly 15 status fetches,
sleeping the fixed 6-second interval before each fetch, and then fails
with a Timeout error naming the instance. -/
theorem c8_poll_bound (env : Env) (podName : String)
    (h : ∀ i, ∃ p, env.getPod podName i = .ok p ∧ p.phase = PodPhase.pending) :
    waitForPodToStart env podName =
      (.error (.timedOut podName),
       (List.replicate 15 [Event.sleep 6, Event.getPodStatus podName]).flatten) :=
  waitAttempts_always_pending env podName h 15 0

/-- An environment whose status fetches always answer a Pending pod. -/
def envAlwaysPending : Env :=
  { envEmptyMonSecret with
    getPod := fun nm _ => .ok { name := nm, phase := PodPhase.pending, podIP := "" } }

/-- C8 witness: the poll bound at a concrete always-Pending environment. -/
theorem c8_poll_bound_witness :
    waitForPodToStart envAlwaysPending "mon0" =
      (.error (.timedOut "mon0"),
       (List.replicate 15 [Event.sleep 6, Event.getPodStatus "mon0"]).flatten) :=
  c8_poll_bound envAlwaysPending "mon0"
    (fun _ => ⟨{ name := "mon0", phase := PodPhase.pending, podIP := "" }, rfl, rfl⟩)

/-- C9: if the status fetch of attempt k fails (after k successful
non-Running fetches), wait() aborts on that very attempt with a fatal
error carrying the fetch failure, without performing any further fetch
or sleep: the trace holds exactly k+1 sleeps and k+1 fetches. -/
theorem c9_fetch_failure_aborts (env : Env) (podName : String) (k : Nat) (e : K8sError)
    (hk : k < 15)
    (hpre : ∀ j, j < k → ∃ p, env.getPod podName j = .ok p ∧ p.phase ≠ PodPhase.running)
    (herr : env.getPod podName k = .error e) :
    waitForPodToStart env podName =
      (.error (.getPodFailed podName e),
       (List.replicate k [Event.sleep 6, Event.getPodStatus podName]).flatten
         ++ [Event.sleep 6, Event.getPodStatus podName]) := by
  have h := waitAttempts_fetch_error env podName e k 0 15 hk
    (fun j hj => by simpa using hpre j hj) (by simpa using herr)
  simpa [waitForPodToStart] using h

/-- An environment whose status fetches answer Pending twice and then
fail. -/
def envFetchFails : Env :=
  { envEmptyMonSecret with
    getPod := fun nm i =>
      if i < 2 then .ok { name := nm, phase := PodPhase.pending, podIP := "" }
      else .error (.other "boom") }

/-- C9 witness: a fetch failure on attempt 2 aborts the poll after
exactly 3 sleeps and 3 fetches. -/
theorem c9_fetch_failure_aborts_witness :
    waitForPodToStart envFetchFails "mon1" =
      (.error (.getPodFailed "mon1" (.other "boom")),
       (List.replicate 2 [Event.sleep 6, Event.getPodStatus "mon1"]).flatten
         ++ [Event.sleep 6, Event.getPodStatus "mon1"]) :=
  c9_fetch_failure_aborts envFetchFails "mon1" 2 (.other "boom")
    (by decide)
    (fun j hj => ⟨{ name := "mon1", phase := PodPhase.pending, podIP := "" },
      by interval_cases j <;> rfl, by simp⟩)
    rfl

/-
C10: the found path of resolve() always starts from an empty monitor
map; monitor entries are populated only by reconcile().
-/

/-- C10: whenever the persisted identity resource exists, resolve()
returns an identity whose monitor map is empty, whatever the persisted
state holds. -/
theorem c10_found_monitors_empty (env : Env) (c : Cluster) (sec : Secret)
    (h : env.getMonSecret = .ok sec) :
    ∃ info, (initClusterInfo env c).1 = .ok info ∧ info.monitors = [] := by
  refine ⟨{ name := secretField sec clusterSecretName
            fsid := secretField sec fsidSecretName
            monitorSecret := secretField sec monSecretName
            adminSecret := secretField sec adminSecretName
            monitors := [] }, ?_, rfl⟩
  rw [initClusterInfo_found env c sec h]

/-- C10 witness: the found path at a concrete environment. -/
theorem c10_found_monitors_empty_witness :
    ∃ info, (initClusterInfo envEmptyMonSecret clusterA).1 = .ok info ∧
      info.monitors = [] :=
  c10_found_monitors_empty envEmptyMonSecret clusterA { data := [] } rfl

/-
C1.  The claim asserts AlreadyExists tolerance on every create path.  In
the source the secondary "rook-admin" create and every mon-pod create do
tolerate AlreadyExists, but the primary "mon" secret create treats every
failure, AlreadyExists included, as fatal (mon.go lines 131-134).
-/

/-- An environment driving first-time creation in which the primary
"mon" secret create answers AlreadyExists (a concurrent actor created it
between the lookup and the create). -/
def envPrimaryExists : Env :=
  { envEmptyMonSecret with
    getMonSecret := .error .notFound
    createMonSecret := .error .alreadyExists }

/-- C1 counterexample: on the primary identity-resource create path an
AlreadyExists failure is surfaced to the caller as a failure of
resolve(), not treated as an idempotent no-op. -/
theorem c1_counterexample :
    isAlreadyExistsError .alreadyExists = true ∧
    (initClusterInfo envPrimaryExists clusterA).1 =
      .error (.saveMonSecretsFailed .alreadyExists) := ⟨rfl, rfl⟩

/-- C1 (amended): AlreadyExists is an idempotent no-op on the secondary
"rook-admin" credential create and on each daemon-instance create (the
loop proceeds to the readiness wait and to the remaining specs), but on
the primary identity-resource create any failure, AlreadyExists
included, is returned to the caller as a failure. -/
theorem c1_alreadyExists_amended (envP envS envD : Env) (cP cS cD : Cluster)
    (e : K8sError) (he : isAlreadyExistsError e = true)
    (freshP freshS : FreshIdentity)
    (hP1 : envP.createClusterInfo = .ok freshP)
    (hP2 : envP.createMonSecret = .error e)
    (hS1 : envS.createClusterInfo = .ok freshS)
    (hS2 : envS.createMonSecret = .ok ())
    (hS3 : envS.createAdminSecret = .error e)
    (info : ClusterInfo) (m : MonConfig) (rest : List MonConfig)
    (hD1 : envD.createPod m.name = .error e)
    (ip : String) (wevs : List Event)
    (hD2 : waitForPodToStart envD m.name = (.ok ip, wevs)) :
    (createMonSecretsAndSave envP cP).1 = .error (.saveMonSecretsFailed e)
    ∧ (createMonSecretsAndSave envS cS).1 = .ok (CreateClusterInfo freshS)
    ∧ startMonsLoop envD cD info (m :: rest) =
        ((startMonsLoop envD cD
            { info with monitors := monInsert info.monitors m.name (toCephMon m.name ip) }
            rest).1,
         Event.createPod m.name ::
           (wevs ++ (startMonsLoop envD cD
             { info with monitors := monInsert info.monitors m.name (toCephMon m.name ip) }
             rest).2)) := by
  refine ⟨?_, ?_, ?_⟩
  · simp [createMonSecretsAndSave, hP1, hP2]
  · simp [createMonSecretsAndSave, hS1, hS2, hS3, he]
  · simp [startMonsLoop, hD1, he, hD2]

/-- An environment whose secondary "rook-admin" create answers
AlreadyExists. -/
def envAdminExists : Env :=
  { envEmptyMonSecret with
    getMonSecret := .error .notFound
    createAdminSecret := .error .alreadyExists }

/-- An environment whose pod creates answer AlreadyExists and whose pods
report Running at the first fetch. -/
def envPodExists : Env :=
  { envEmptyMonSecret with
    createPod := fun _ => .error .alreadyExists
    getPod := fun nm _ => .ok { name := nm, phase := PodPhase.running, podIP := "1.2.3.4" } }

/-- An identity value used as loop input in examples. -/
def infoPlain : ClusterInfo :=
  { name := "c", fsid := "f", monitorSecret := "m", adminSecret := "a", monitors := [] }

/-- C1 witness: the amended theorem at concrete environments for its
three paths. -/
theorem c1_alreadyExists_amended_witness :
    (createMonSecretsAndSave envPrimaryExists clusterA).1 =
      .error (.saveMonSecretsFailed .alreadyExists)
    ∧ (createMonSecretsAndSave envAdminExists clusterA).1 =
      .ok (CreateClusterInfo { name := "c", fsid := "f", monitorSecret := "m", adminSecret := "a" })
    ∧ startMonsLoop envPodExists clusterA infoPlain
        ({ name := "mon0", port := monPortValue } :: []) =
        ((startMonsLoop envPodExists clusterA
            { infoPlain with
              monitors := monInsert infoPlain.monitors "mon0" (toCephMon "mon0" "1.2.3.4") }
            []).1,
         Event.createPod "mon0" ::
           ([Event.sleep 6, Event.getPodStatus "mon0"] ++
             (startMonsLoop envPodExists clusterA
               { infoPlain with
                 monitors := monInsert infoPlain.monitors "mon0" (toCephMon "mon0" "1.2.3.4") }
               []).2)) :=
  c1_alreadyExists_amended envPrimaryExists envAdminExists envPodExists
    clusterA clusterA clusterA .alreadyExists rfl
    { name := "c", fsid := "f", monitorSecret := "m", adminSecret := "a" }
    { name := "c", fsid := "f", monitorSecret := "m", adminSecret := "a" }
    rfl rfl rfl rfl rfl
    infoPlain { name := "mon0", port := monPortValue } [] rfl
    "1.2.3.4" [Event.sleep 6, Event.getPodStatus "mon0"] rfl

/-
C5.  Idempotence of resolve() against the store-backed environment.
-/

/-- The StringData the primary "mon" secret is written with. -/
def monSecretData (f : FreshIdentity) : List (String × String) :=
  [(clusterSecretName, f.name), (fsidSecretName, f.fsid),
   (monSecretName, f.monitorSecret), (adminSecretName, f.adminSecret)]

/-- The identity value the found path reads out of a Data map. -/
def infoOfData (d : List (String × String)) : ClusterInfo :=
  { name := secretField { data := d } clusterSecretName
    fsid := secretField { data := d } fsidSecretName
    monitorSecret := secretField { data := d } monSecretName
    adminSecret := secretField { data := d } adminSecretName
    monitors := [] }

/-- Reading the written StringData back recovers the generated identity. -/
theorem infoOfData_monSecretData (f : FreshIdentity) :
    infoOfData (monSecretData f) = CreateClusterInfo f := by
  simp [infoOfData, monSecretData, CreateClusterInfo, secretField, List.find?,
    clusterSecretName, fsidSecretName, monSecretName, adminSecretName]

/-- resolveStore when the identity resource is persisted: the persisted
fields are read back, the store is unchanged, and the only call issued
is the lookup. -/
theorem resolveStore_found (s : Store) (fresh : FreshIdentity) (c : Cluster)
    (kv : String × List (String × String))
    (hfind : s.secrets.find? (fun kv => kv.1 == appName) = some kv) :
    resolveStore s fresh c = (.ok (infoOfData kv.2), s, [Event.getSecret appName]) := by
  simp [resolveStore, initClusterInfo, envOfStore, storeGet, hfind, infoOfData,
    applyEvents, applyEvent]

/-- resolveStore when the identity resource is absent: a fresh identity
is generated and returned, the primary secret is persisted under the
well-known name, and the secondary secret is persisted unless already
present. -/
theorem resolveStore_notFound (s : Store) (fresh : FreshIdentity) (c : Cluster)
    (hfind : s.secrets.find? (fun kv => kv.1 == appName) = none) :
    resolveStore s fresh c =
      (.ok (CreateClusterInfo fresh),
       { secrets := (s.secrets ++ [(appName, monSecretData fresh)]) ++
           (if storeHas s "rook-admin" then []
            else [("rook-admin", [("key", fresh.adminSecret)])]) },
       [Event.getSecret appName,
        Event.createSecret appName (monSecretData fresh),
        Event.createSecret "rook-admin" [("key", fresh.adminSecret)]]) := by
  have hhas : storeHas s appName = false := by simp [storeHas, hfind]
  have hAdm : storeHas { secrets := s.secrets ++ [(appName, monSecretData fresh)] } "rook-admin"
      = storeHas s "rook-admin" := by
    simp [storeHas, List.find?_append, appName]
  simp only [monSecretData] at hAdm
  cases hra : storeHas s "rook-admin" <;>
    simp [resolveStore, initClusterInfo, envOfStore, storeGet, hfind, hhas, hra,
      createMonSecretsAndSave, CreateClusterInfo, monSecretData,
      isNotFoundError, isAlreadyExistsError,
      applyEvents, applyEvent, hAdm]

/-- C5: resolve() is idempotent: when a resolve() call against a
persisted state succeeds, a second resolve() call against the resulting
state returns the identical identity value, leaves the store unchanged,
and issues zero write operations. -/
theorem c5_resolve_idempotent (s : Store) (fresh1 fresh2 : FreshIdentity) (c : Cluster)
    (info1 : ClusterInfo)
    (h : (resolveStore s fresh1 c).1 = .ok info1) :
    (resolveStore (resolveStore s fresh1 c).2.1 fresh2 c).1 = .ok info1 ∧
    (resolveStore (resolveStore s fresh1 c).2.1 fresh2 c).2.1 = (resolveStore s fresh1 c).2.1 ∧
    ((resolveStore (resolveStore s fresh1 c).2.1 fresh2 c).2.2).filter Event.isWrite = [] := by
  cases hfind : s.secrets.find? (fun kv => kv.1 == appName) with
  | some kv =>
    rw [resolveStore_found s fresh1 c kv hfind] at h ⊢
    rw [resolveStore_found s fresh2 c kv hfind]
    simp at h
    simp [h, Event.isWrite]
  | none =>
    rw [resolveStore_notFound s fresh1 c hfind] at h ⊢
    simp at h
    have hfind2 :
        ((s.secrets ++ [(appName, monSecretData fresh1)]) ++
          (if storeHas s "rook-admin" then []
           else [("rook-admin", [("key", fresh1.adminSecret)])])).find?
          (fun kv => kv.1 == appName) = some (appName, monSecretData fresh1) := by
      rw [List.find?_append, List.find?_append, hfind]
      simp [List.find?, appName]
    rw [resolveStore_found _ fresh2 c _ hfind2]
    simp [infoOfData_monSecretData, h, Event.isWrite]

/-- C5 witness: two sequential resolves from the empty store. -/
theorem c5_resolve_idempotent_witness :
    (resolveStore (resolveStore { secrets := [] }
        { name := "c", fsid := "f", monitorSecret := "m", adminSecret := "a" } clusterA).2.1
      { name := "c2", fsid := "f2", monitorSecret := "m2", adminSecret := "a2" } clusterA).1 =
      .ok (CreateClusterInfo { name := "c", fsid := "f", monitorSecret := "m", adminSecret := "a" }) ∧
    (resolveStore (resolveStore { secrets := [] }
        { name := "c", fsid := "f", monitorSecret := "m", adminSecret := "a" } clusterA).2.1
      { name := "c2", fsid := "f2", monitorSecret := "m2", adminSecret := "a2" } clusterA).2.1 =
      (resolveStore { secrets := [] }
        { name := "c", fsid := "f", monitorSecret := "m", adminSecret := "a" } clusterA).2.1 ∧
    ((resolveStore (resolveStore { secrets := [] }
        { name := "c", fsid := "f", monitorSecret := "m", adminSecret := "a" } clusterA).2.1
      { name := "c2", fsid := "f2", monitorSecret := "m2", adminSecret := "a2" } clusterA).2.2).filter
        Event.isWrite = [] :=
  c5_resolve_idempotent { secrets := [] }
    { name := "c", fsid := "f", monitorSecret := "m", adminSecret := "a" }
    { name := "c2", fsid := "f2", monitorSecret := "m2", adminSecret := "a2" }
    clusterA
    (CreateClusterInfo { name := "c", fsid := "f", monitorSecret := "m", adminSecret := "a" })
    (by rfl)

/-
Lemmas about the creation loop and the monitor map fold.
-/

/-- A wait whose very first status fetch reports Running returns that
pod's IP after one sleep and one fetch. -/
theorem waitForPodToStart_first_running (env : Env) (podName : String) (p : Pod)
    (hp : env.getPod podName 0 = .ok p) (hph : p.phase = PodPhase.running) :
    waitForPodToStart env podName =
      (.ok p.podIP, [Event.sleep 6, Event.getPodStatus podName]) := by
  show waitAttempts env podName 0 (14 + 1) = _
  simp [waitAttempts, hp, hph]

/-- The creation loop mutates only the monitor map: a successful result
carries the input's four identity fields. -/
theorem startMonsLoop_fields (env : Env) (c : Cluster) :
    ∀ mons info out, (startMonsLoop env c info mons).1 = .ok out →
      out.name = info.name ∧ out.fsid = info.fsid ∧
      out.monitorSecret = info.monitorSecret ∧ out.adminSecret = info.adminSecret := by
  intro mons
  induction mons with
  | nil =>
    intro info out h
    simp [startMonsLoop] at h
    simp [← h]
  | cons m rest ih =>
    intro info out h
    simp only [startMonsLoop] at h
    split at h
    · simp at h
    · split at h
      · simp at h
      · simpa using ih _ out h

/-- The creation loop when every create is accepted (success or a
tolerated AlreadyExists) and every instance reports Running at its first
status fetch: each spec contributes, in spec order, exactly one create,
one sleep and one fetch. -/
theorem startMonsLoop_tolerated (env : Env) (c : Cluster) (ip : String → String)
    (hcreate : ∀ nm, env.createPod nm = .ok () ∨ env.createPod nm = .error .alreadyExists)
    (hget : ∀ nm i, env.getPod nm i =
      .ok { name := nm, phase := PodPhase.running, podIP := ip nm }) :
    ∀ mons info, ∃ out, startMonsLoop env c info mons =
      (.ok out,
       (mons.map (fun m =>
         [Event.createPod m.name, Event.sleep 6, Event.getPodStatus m.name])).flatten) := by
  intro mons
  induction mons with
  | nil => intro info; exact ⟨info, by simp [startMonsLoop]⟩
  | cons m rest ih =>
    intro info
    obtain ⟨out, hout⟩ :=
      ih { info with monitors := monInsert info.monitors m.name (toCephMon m.name (ip m.name)) }
    have hwait := waitForPodToStart_first_running env m.name _ (hget m.name 0) rfl
    refine ⟨out, ?_⟩
    rcases hcreate m.name with hc | hc <;>
      simp [startMonsLoop, hc, isAlreadyExistsError, hwait, hout]

/-- Folding monitor insertions of pods with pairwise-distinct names over
an accumulator whose keys avoid those names appends one entry per pod,
in pod order. -/
theorem foldl_monInsert (l : List Pod) :
    ∀ acc, (l.map Pod.name).Nodup →
    (∀ p ∈ l, ∀ kv ∈ acc, kv.1 ≠ p.name) →
    l.foldl (fun ms p => monInsert ms p.name (toCephMon p.name p.podIP)) acc =
      acc ++ l.map (fun p => (p.name, toCephMon p.name p.podIP)) := by
  induction l with
  | nil => intro acc _ _; simp
  | cons p rest ih =>
    intro acc hnd hdis
    have hfilter : acc.filter (fun kv => kv.1 != p.name) = acc :=
      List.filter_eq_self.mpr (fun kv hkv => by
        simpa using hdis p (List.mem_cons_self p rest) kv hkv)
    have hndrest : (rest.map Pod.name).Nodup := by
      simp [List.nodup_cons] at hnd
      exact hnd.2
    have hnotin : p.name ∉ rest.map Pod.name := by
      simp [List.nodup_cons] at hnd
      simpa using hnd.1
    have hstep : monInsert acc p.name (toCephMon p.name p.podIP) =
        acc ++ [(p.name, toCephMon p.name p.podIP)] := by
      simp only [monInsert, hfilter]
    rw [List.foldl_cons, hstep, ih (acc ++ [(p.name, toCephMon p.name p.podIP)]) hndrest ?_]
    · simp
    · intro q hq kv hkv
      rcases List.mem_append.mp hkv with h1 | h2
      · exact hdis q (List.mem_cons_of_mem _ hq) kv h1
      · simp at h2
        have hmem : q.name ∈ rest.map Pod.name := List.mem_map_of_mem Pod.name hq
        have hne : p.name ≠ q.name := fun hEq => hnotin (hEq ▸ hmem)
        rw [h2]
        exact hne

/-
C7: the short circuit of reconcile().
-/

/-- The monitor entries recorded for a list of observed pods. -/
def recordedMonitors (pods : List Pod) : List (String × CephMonitorConfig) :=
  pods.map (fun p => (p.name, toCephMon p.name p.podIP))

/-- C7: when the Running-instance count equals the desired size,
reconcile() returns right after recording each Running instance's name
and address into the monitor map: it issues zero create calls and zero
status polls, its whole trace being the node listing and the pod
listing. -/
theorem c7_short_circuit (env : Env) (c : Cluster) (info : ClusterInfo)
    (mons : List MonConfig) (pods : List Pod) (k : Nat)
    (hnodes : env.listNodes = .ok k)
    (hpods : env.listPods = .ok pods)
    (hlen : (pods.filter (fun p => p.phase == PodPhase.running)).length = c.size)
    (hnodup : ((pods.filter (fun p => p.phase == PodPhase.running)).map Pod.name).Nodup) :
    startPods env c info mons =
      (.ok { info with
             monitors := recordedMonitors (pods.filter (fun p => p.phase == PodPhase.running)) },
       [Event.listNodes, Event.listPods]) := by
  have hfold := foldl_monInsert (pods.filter (fun p => p.phase == PodPhase.running)) []
    hnodup (by simp)
  simp [startPods, getAntiAffinity, hnodes, pollPods, hpods, hlen, hfold, recordedMonitors]

/-- A pod named mon0 in the Running phase. -/
def podMon0Running : Pod :=
  { name := "mon0", phase := PodPhase.running, podIP := "10.0.0.1" }

/-- An environment whose pod listing reports one Running mon pod. -/
def envOneRunning : Env :=
  { envEmptyMonSecret with listPods := .ok [podMon0Running] }

/-- A cluster of desired size 1. -/
def clusterOne : Cluster := { ns := "ns", size := 1 }

/-- C7 witness: the short circuit at a concrete single-mon cluster whose
one pod is already Running. -/
theorem c7_short_circuit_witness :
    startPods envOneRunning clusterOne infoPlain (monConfigs 1) =
      (.ok { infoPlain with monitors := recordedMonitors [podMon0Running] },
       [Event.listNodes, Event.listPods]) := by
  have h := c7_short_circuit envOneRunning clusterOne infoPlain (monConfigs 1)
    [podMon0Running] 0 rfl rfl (by decide) (by decide)
  simpa using h

/-
C3.  The claim asserts that reconcile() never removes monitor entries
already present in the identity's map.  In the source the map is reset
to empty at the start of startPods (mon.go line 171) and rebuilt from
observed pods only, so pre-existing entries are discarded; the frame on
the four identity fields does hold.
-/

/-- An identity carrying a pre-existing monitor entry named zzz. -/
def infoWithStale : ClusterInfo :=
  { name := "c", fsid := "f", monitorSecret := "m", adminSecret := "a"
    monitors := [("zzz", { name := "zzz", endpoint := "9.9.9.9:6790" })] }

/-- C3 counterexample: reconcile() succeeds on a cluster whose single
pod is Running, but the monitor entry zzz present in the input identity
is gone from the returned identity's map. -/
theorem c3_counterexample :
    infoWithStale.monitors.find? (fun kv => kv.1 == "zzz") =
      some ("zzz", { name := "zzz", endpoint := "9.9.9.9:6790" }) ∧
    (startPods envOneRunning clusterOne infoWithStale (monConfigs 1)).1 =
      .ok { infoWithStale with monitors := recordedMonitors [podMon0Running] } ∧
    (recordedMonitors [podMon0Running]).find? (fun kv => kv.1 == "zzz") = none := by
  refine ⟨rfl, ?_, rfl⟩
  rfl

/-- C3 (amended): reconcile() leaves the cluster name, fsid, monitor
secret and admin secret of the identity unchanged; the monitor map,
however, is rebuilt from scratch out of the observed Running instances
and the started daemons, so entries present beforehand are kept only if
re-observed. -/
theorem c3_amended_fields_preserved (env : Env) (c : Cluster) (info : ClusterInfo)
    (mons : List MonConfig) (out : ClusterInfo)
    (h : (startPods env c info mons).1 = .ok out) :
    out.name = info.name ∧ out.fsid = info.fsid ∧
    out.monitorSecret = info.monitorSecret ∧ out.adminSecret = info.adminSecret := by
  unfold startPods at h
  split at h
  · simp at h
  · split at h
    · simp at h
    · split at h
      · simp at h
        simp [← h]
      · simpa using startMonsLoop_fields env c mons _ out h

/-- C3 witness: the amended frame theorem at the concrete short-circuit
run of the counterexample environment. -/
theorem c3_amended_fields_preserved_witness :
    ({ infoWithStale with monitors := recordedMonitors [podMon0Running] } : ClusterInfo).name
        = infoWithStale.name ∧
    ({ infoWithStale with monitors := recordedMonitors [podMon0Running] } : ClusterInfo).fsid
        = infoWithStale.fsid ∧
    ({ infoWithStale with monitors := recordedMonitors [podMon0Running] } : ClusterInfo).monitorSecret
        = infoWithStale.monitorSecret ∧
    ({ infoWithStale with monitors := recordedMonitors [podMon0Running] } : ClusterInfo).adminSecret
        = infoWithStale.adminSecret :=
  c3_amended_fields_preserved envOneRunning clusterOne infoWithStale (monConfigs 1)
    { infoWithStale with monitors := recordedMonitors [podMon0Running] } (by rfl)

/-
C4.  The claim asserts that no create call is issued for a spec whose
instance is already Running.  In the source the only create suppression
is the global short circuit; once the loop runs, a create is issued for
every spec, Running ones included, and the resulting AlreadyExists is
tolerated (mon.go lines 183-196).
-/

/-- Whether an event is a pod-create call. -/
def Event.isCreatePodCall : Event → Bool
  | .createPod _ => true
  | _ => false

/-- A cluster of desired size 2. -/
def clusterTwo : Cluster := { ns := "ns", size := 2 }

/-- An environment in which mon0 is already Running, pod creates answer
AlreadyExists for mon0 and succeed otherwise, and every status fetch
reports Running. -/
def envMon0Running : Env :=
  { envEmptyMonSecret with
    listPods := .ok [podMon0Running]
    createPod := fun nm => if nm == "mon0" then .error .alreadyExists else .ok ()
    getPod := fun nm _ => .ok { name := nm, phase := PodPhase.running, podIP := "10.0.0.9" } }

/-- C4 counterexample: mon0 is classified as Running at the start of
reconcile(), the run succeeds, and a create call for mon0 is issued
nonetheless. -/
theorem c4_counterexample :
    envMon0Running.listPods = .ok [podMon0Running] ∧
    podMon0Running.phase = PodPhase.running ∧
    podMon0Running.name = "mon0" ∧
    (monConfigs clusterTwo.size).map MonConfig.name = ["mon0", "mon1"] ∧
    Event.createPod "mon0" ∈
      (startPods envMon0Running clusterTwo infoPlain (monConfigs clusterTwo.size)).2 := by
  refine ⟨rfl, rfl, rfl, by decide, by decide⟩

/-- The pod-create calls of the per-spec trace are one per spec, in spec
order. -/
theorem filter_create_trace (mons : List MonConfig) :
    ((mons.map (fun m =>
        [Event.createPod m.name, Event.sleep 6, Event.getPodStatus m.name])).flatten).filter
      Event.isCreatePodCall = mons.map (fun m => Event.createPod m.name) := by
  induction mons with
  | nil => rfl
  | cons m rest ih => simp [ih, Event.isCreatePodCall]

/-- C4 (amended): unless the global short circuit fires (Running count
equal to desired size), reconcile() issues one create call for every
spec in order, including specs whose instance is already Running; the
create of an already-existing instance fails with AlreadyExists and is
tolerated. -/
theorem c4_creates_for_every_spec (env : Env) (c : Cluster) (info : ClusterInfo)
    (mons : List MonConfig) (pods : List Pod) (ip : String → String) (k : Nat)
    (hnodes : env.listNodes = .ok k)
    (hpods : env.listPods = .ok pods)
    (hnoshort : (pods.filter (fun p => p.phase == PodPhase.running)).length ≠ c.size)
    (hcreate : ∀ nm, env.createPod nm = .ok () ∨ env.createPod nm = .error .alreadyExists)
    (hget : ∀ nm i, env.getPod nm i =
      .ok { name := nm, phase := PodPhase.running, podIP := ip nm }) :
    (∃ out, (startPods env c info mons).1 = .ok out) ∧
    ((startPods env c info mons).2).filter Event.isCreatePodCall =
      mons.map (fun m => Event.createPod m.name) := by
  obtain ⟨out, hout⟩ := startMonsLoop_tolerated env c ip hcreate hget mons
    { info with monitors := ((pods.filter (fun p => p.phase == PodPhase.running)).foldl (fun ms p => monInsert ms p.name (toCephMon p.name p.podIP)) []) }
  constructor
  · refine ⟨out, ?_⟩
    simp [startPods, getAntiAffinity, hnodes, pollPods, hpods, hnoshort, hout]
  · have htr : (startPods env c info mons).2 =
        [Event.listNodes, Event.listPods] ++
          (mons.map (fun m =>
            [Event.createPod m.name, Event.sleep 6, Event.getPodStatus m.name])).flatten := by
      simp [startPods, getAntiAffinity, hnodes, pollPods, hpods, hnoshort, hout]
    rw [htr, List.filter_append, filter_create_trace]
    simp [Event.isCreatePodCall]

/-- C4 witness: at the counterexample environment the create calls are
exactly one per spec, mon0 and mon1, though mon0 is already Running. -/
theorem c4_creates_for_every_spec_witness :
    (∃ out, (startPods envMon0Running clusterTwo infoPlain (monConfigs clusterTwo.size)).1
      = .ok out) ∧
    ((startPods envMon0Running clusterTwo infoPlain (monConfigs clusterTwo.size)).2).filter
      Event.isCreatePodCall =
      (monConfigs clusterTwo.size).map (fun m => Event.createPod m.name) :=
  c4_creates_for_every_spec envMon0Running clusterTwo infoPlain
    (monConfigs clusterTwo.size) [podMon0Running] (fun _ => "10.0.0.9") 0
    rfl rfl (by decide)
    (fun nm => by
      by_cases h : nm = "mon0"
      · subst h; simp [envMon0Running, envEmptyMonSecret]
      · simp [envMon0Running, envEmptyMonSecret, h])
    (fun _ _ => rfl)

/-
C6: determinism of reconcile() from a clean slate.
-/

/-- C6: with desired size N and zero existing instances, and an
environment accepting every create and reporting Running at the first
fetch, reconcile() issues exactly N create calls, in the order mon0,
mon1, ..., mon(N-1), each followed immediately by that instance's
readiness poll (one sleep then one status fetch) before the next spec's
create. -/
theorem c6_reconcile_deterministic (env : Env) (c : Cluster) (info : ClusterInfo)
    (ip : String → String) (k : Nat)
    (hnodes : env.listNodes = .ok k)
    (hpods : env.listPods = .ok [])
    (hcreate : ∀ nm, env.createPod nm = .ok ())
    (hget : ∀ nm i, env.getPod nm i =
      .ok { name := nm, phase := PodPhase.running, podIP := ip nm }) :
    ∃ out, startPods env c info (monConfigs c.size) =
      (.ok out,
       [Event.listNodes, Event.listPods] ++
        ((List.range c.size).map (fun i =>
          [Event.createPod ("mon" ++ toString i), Event.sleep 6,
           Event.getPodStatus ("mon" ++ toString i)])).flatten) := by
  by_cases hsz : 0 = c.size
  · refine ⟨{ info with monitors := [] }, ?_⟩
    simp [startPods, getAntiAffinity, hnodes, pollPods, hpods, ← hsz, monConfigs]
  · obtain ⟨out, hout⟩ := startMonsLoop_tolerated env c ip (fun nm => .inl (hcreate nm)) hget
      (monConfigs c.size) { info with monitors := [] }
    refine ⟨out, ?_⟩
    have htrace :
        (List.map (fun m =>
          [Event.createPod m.name, Event.sleep 6, Event.getPodStatus m.name])
          (monConfigs c.size)).flatten =
        (List.map (fun i =>
          [Event.createPod ("mon" ++ toString i), Event.sleep 6,
           Event.getPodStatus ("mon" ++ toString i)]) (List.range c.size)).flatten := by
      simp only [monConfigs, List.map_map]
      rfl
    simp [startPods, getAntiAffinity, hnodes, pollPods, hpods, hsz, hout, htrace]

/-- An environment with no existing pods, accepting creates, reporting
Running at every fetch. -/
def envCleanSlate : Env :=
  { envEmptyMonSecret with
    getPod := fun nm _ => .ok { name := nm, phase := PodPhase.running, podIP := "10.1.1.1" } }

/-- C6 witness: the deterministic trace at a concrete two-mon cluster
with zero existing instances. -/
theorem c6_reconcile_deterministic_witness :
    ∃ out, startPods envCleanSlate clusterTwo infoPlain (monConfigs clusterTwo.size) =
      (.ok out,
       [Event.listNodes, Event.listPods] ++
        ((List.range clusterTwo.size).map (fun i =>
          [Event.createPod ("mon" ++ toString i), Event.sleep 6,
           Event.getPodStatus ("mon" ++ toString i)])).flatten) :=
  c6_reconcile_deterministic envCleanSlate clusterTwo infoPlain (fun _ => "10.1.1.1") 0
    rfl rfl (fun _ => rfl) (fun _ _ => rfl)

end Rook
